import Mathlib

/-
Verification of the stdio JSON-RPC bridge and task supervisor shared by the
BoolTox plugin backends.  The Python sources are shallowly embedded:

* namespace `Pomodoro` models `packages/official/pomodoro/backend/server.py`
  -- the `PomodoroTimer` class and the `main` read loop;
* namespace `Demo` models the supervisor commands of
  `packages/examples/backend-demo/backend/server.py` -- the `SystemMonitor`
  class and its `main` read loop (the telemetry query commands delegate to
  psutil collaborators that are outside the supervision core and are not
  needed by any property below);
* namespace `Uiauto` models `packages/official/uiautodev/backend/main.py`
  -- the external-process supervisor and its request loop.

Effects are made explicit: every write to one of the two output streams
becomes a value of an output type, the timer worker thread becomes a
fuel-indexed event trace with an explicit program counter marking where in
the loop body the thread currently is, and the operating-system calls of the
uiautodev supervisor are driven by an environment record fixing the outcome
of each fallible external call while the calls themselves are recorded in an
action trace.  Input lines are modelled after the outcome of json.loads:
either malformed or a decoded request shape.
-/

namespace Pomodoro

/-- State of `PomodoroTimer` (server.py lines 16-21).  `duration` and
`remaining` are Python ints (seconds); `start_time` abstracts the
`datetime.now()` value as an opaque clock reading. -/
structure TimerState where
  duration : Int
  remaining : Int
  is_running : Bool
  start_time : Option Nat
  deriving DecidableEq, Repr

/-- Initial state from `__init__`: 25 minutes, i.e. 1500 seconds. -/
def initState : TimerState :=
  { duration := 25 * 60, remaining := 25 * 60, is_running := false, start_time := none }

/-- The dollar-event notifications the timer pushes via `send` ("tick",
"complete", "reset" payloads). -/
inductive Event where
  | tick (remaining : Int) (total : Int)
  | complete
  | reset (remaining : Int)
  deriving DecidableEq, Repr

/-- Result dictionaries returned by the timer methods: success with a
remaining field, failure with an error string, or the getStatus payload. -/
inductive RpcVal where
  | successRemaining (remaining : Int)
  | opFailure (error : String)
  | statusVal (isRunning : Bool) (remaining : Int) (duration : Int) (startTime : Option Nat)
  deriving DecidableEq, Repr

/-- `start_timer` (server.py lines 79-97).  The `duration` parameter is
`params.get("duration")`: absent is None, and Python's `if duration:` is
int truthiness, i.e. present and nonzero.  The trailing Bool records whether
a new tick-worker thread was started. -/
def start_timer (s : TimerState) (duration : Option Int) (now : Nat) :
    TimerState × RpcVal × Bool :=
  if s.is_running then
    (s, RpcVal.opFailure "Timer already running", false)
  else
    let s1 :=
      match duration with
      | some d =>
        if d ≠ 0 then { s with duration := d, remaining := d }
        else { s with remaining := s.duration }
      | none => { s with remaining := s.duration }
    let s2 := { s1 with is_running := true, start_time := some now }
    (s2, RpcVal.successRemaining s2.remaining, true)

/-- `pause_timer` (server.py lines 99-105). -/
def pause_timer (s : TimerState) : TimerState × RpcVal :=
  if s.is_running then
    ({ s with is_running := false }, RpcVal.successRemaining s.remaining)
  else
    (s, RpcVal.opFailure "Timer not running")

/-- `reset_timer` (server.py lines 107-118); it pushes a "reset" event
notification before returning its result. -/
def reset_timer (s : TimerState) : TimerState × RpcVal × List Event :=
  let s1 := { s with is_running := false, remaining := s.duration, start_time := none }
  (s1, RpcVal.successRemaining s1.remaining, [Event.reset s1.remaining])

/-- `get_status` (server.py lines 120-127): a pure read of the state. -/
def get_status (s : TimerState) : RpcVal :=
  RpcVal.statusVal s.is_running s.remaining s.duration s.start_time

/-- Program counter of the tick-worker thread inside `timer_loop`
(server.py lines 48-77).  `loopHead` is the while-condition check;
`afterSleep` means the thread has entered the loop body and is inside
`time.sleep(1)`: on waking it will decrement and emit a tick before the
condition is checked again. -/
inductive WorkerPC where
  | loopHead
  | afterSleep
  deriving DecidableEq, Repr

/-- `timer_loop` run to completion from the given program counter, with fuel
bounding the number of steps (the real loop terminates because `remaining`
strictly decreases; any fuel of at least `2 * remaining + 1` is enough).
Returns the emitted events in order together with the final state.  Mirrors
the body: sleep, decrement, send tick (with `total` the current duration),
then if `remaining <= 0` clear the running flag and send complete; the
while condition re-checks `is_running` and `remaining > 0`. -/
def timer_loop : Nat → WorkerPC → TimerState → List Event × TimerState
  | 0, _, s => ([], s)
  | Nat.succ fuel, WorkerPC.loopHead, s =>
    if s.is_running ∧ 0 < s.remaining then
      timer_loop fuel WorkerPC.afterSleep s
    else
      ([], s)
  | Nat.succ fuel, WorkerPC.afterSleep, s =>
    let r := s.remaining - 1
    let s1 := { s with remaining := r }
    if r ≤ 0 then
      let s2 := { s1 with is_running := false }
      let rest := timer_loop fuel WorkerPC.loopHead s2
      (Event.tick r s2.duration :: Event.complete :: rest.1, rest.2)
    else
      let rest := timer_loop fuel WorkerPC.loopHead s1
      (Event.tick r s1.duration :: rest.1, rest.2)

/-- Recognizer for tick events. -/
def isTick : Event → Bool
  | Event.tick _ _ => true
  | _ => false

/-- Messages written by the main loop and the worker: stdout carries
protocol frames (responses and event notifications), stderr carries
free-text diagnostics only. -/
inductive OutMsg where
  | response (id : Int) (v : RpcVal)
  | errorResponse (id : Int) (code : Int) (message : String)
  | notify (e : Event)
  deriving DecidableEq, Repr

/-- An output action on one of the two streams.  The stderr payload keeps
the fixed prefix of the f-string diagnostics (the appended exception text is
environment-dependent free text). -/
inductive Out where
  | stdout (m : OutMsg)
  | stderr (tag : String)
  deriving DecidableEq, Repr

/-- Recognizer for stdout frames. -/
def isStdoutOut : Out → Bool
  | Out.stdout _ => true
  | Out.stderr _ => false

/-- Recognizer for response frames (success or error) on stdout. -/
def isResponseOut : Out → Bool
  | Out.stdout (OutMsg.response _ _) => true
  | Out.stdout (OutMsg.errorResponse _ _ _) => true
  | _ => false

/-- Dispatch outcome of one request: a result dictionary or an error
object, as passed to `send_response`. -/
inductive Outcome where
  | result (v : RpcVal)
  | rpcError (code : Int) (message : String)
  deriving DecidableEq, Repr

/-- Request params as read by `main`: only `duration` is ever consulted. -/
structure Params where
  duration : Option Int
  deriving DecidableEq, Repr

/-- A decoded request: optional id, method name, params. -/
structure Req where
  id : Option Int
  method : String
  params : Params
  deriving DecidableEq, Repr

/-- One input line after `json.loads`: either a decode failure or a decoded
request. -/
inductive Line where
  | malformed
  | request (r : Req)
  deriving DecidableEq, Repr

/-- The if/elif dispatch of `main` (server.py lines 155-165): new state,
event notifications pushed while handling, the outcome, and whether a
tick-worker thread was spawned. -/
def handle_method (s : TimerState) (method : String) (p : Params) (now : Nat) :
    TimerState × List Event × Outcome × Bool :=
  if method = "start" then
    let r := start_timer s p.duration now
    (r.1, [], Outcome.result r.2.1, r.2.2)
  else if method = "pause" then
    let r := pause_timer s
    (r.1, [], Outcome.result r.2, false)
  else if method = "reset" then
    let r := reset_timer s
    (r.1, r.2.2, Outcome.result r.2.1, false)
  else if method = "getStatus" then
    (s, [], Outcome.result (get_status s), false)
  else
    (s, [], Outcome.rpcError (-32601) ("Method not found: " ++ method), false)

/-- One iteration of the `main` read loop (server.py lines 140-179): a
malformed line writes a diagnostic to stderr and continues; a request is
dispatched, its event notifications are written, and a response is written
only when the request carried an id.  The Bool records whether a worker
thread was spawned. -/
def processLine (s : TimerState) (l : Line) (now : Nat) : TimerState × List Out × Bool :=
  match l with
  | Line.malformed => (s, [Out.stderr "JSON 解析错误"], false)
  | Line.request r =>
    let h := handle_method s r.method r.params now
    let evOuts := h.2.1.map (fun e => Out.stdout (OutMsg.notify e))
    let respOuts :=
      match r.id with
      | none => []
      | some i =>
        match h.2.2.1 with
        | Outcome.result v => [Out.stdout (OutMsg.response i v)]
        | Outcome.rpcError c m => [Out.stdout (OutMsg.errorResponse i c m)]
    (h.1, evOuts ++ respOuts, h.2.2.2)

/-- The read loop folded over a list of input lines (worker threads excluded:
their traces are `timer_loop`). -/
def processLines (s : TimerState) (ls : List Line) (now : Nat) : TimerState × List Out :=
  match ls with
  | [] => (s, [])
  | l :: rest =>
    let r := processLine s l now
    let r1 := processLines r.1 rest now
    (r1.1, r.2.1 ++ r1.2)

/-- Scenario A of the spec, sequenced under best-effort cadence: the request
with id 1 and duration 5 is dispatched (the synchronous response write
completes while the freshly spawned worker is inside its first one-second
sleep), then the worker trace runs to completion. -/
def scenarioA : List Out :=
  let m := processLine initState
    (Line.request { id := some 1, method := "start", params := { duration := some 5 } }) 0
  m.2.1 ++ (timer_loop 12 WorkerPC.loopHead m.1).1.map (fun e => Out.stdout (OutMsg.notify e))

end Pomodoro

namespace Demo

/-- State of `SystemMonitor` (backend-demo server.py lines 27-29): the
monitoring flag (the thread handle is represented by the spawn indicator of
each step). -/
structure MonState where
  monitoring : Bool
  deriving DecidableEq, Repr

/-- The supervisor commands of `handle_command`; every other (telemetry)
command name falls into `other`, for which only the `unknown_command` branch
is relevant to the supervision core. -/
inductive Cmd where
  | start_monitor
  | stop_monitor
  | other (name : String)
  deriving DecidableEq, Repr

/-- One input line of the demo backend after `json.loads`. -/
inductive DLine where
  | malformed
  | payload (c : Cmd)
  deriving DecidableEq, Repr

/-- Every message this backend writes is a stdout notification built by
`send(method, params)`; we record the method name. -/
inductive DOut where
  | notif (method : String)
  deriving DecidableEq, Repr

/-- `start_monitor` / `stop_monitor` / unknown-command dispatch
(backend-demo server.py lines 176-196 and 234-235).  The Bool records
whether a monitor thread was spawned. -/
def handle_command (s : MonState) (c : Cmd) : MonState × List DOut × Bool :=
  match c with
  | Cmd.start_monitor =>
    if s.monitoring then (s, [DOut.notif "info"], false)
    else ({ monitoring := true }, [DOut.notif "monitor_started"], true)
  | Cmd.stop_monitor =>
    if s.monitoring then ({ monitoring := false }, [DOut.notif "monitor_stopped"], false)
    else (s, [DOut.notif "info"], false)
  | Cmd.other _ => (s, [DOut.notif "unknown_command"], false)

/-- One iteration of the demo `main` loop (backend-demo server.py lines
246-260): a malformed line sends an "error" notification on stdout and
continues. -/
def dProcessLine (s : MonState) (l : DLine) : MonState × List DOut × Bool :=
  match l with
  | DLine.malformed => (s, [DOut.notif "error"], false)
  | DLine.payload c => handle_command s c

/-- The demo read loop folded over a list of input lines. -/
def dProcessLines (s : MonState) (ls : List DLine) : MonState × List DOut :=
  match ls with
  | [] => (s, [])
  | l :: rest =>
    let r := dProcessLine s l
    let r1 := dProcessLines r.1 rest
    (r1.1, r.2.1 ++ r1.2)

end Demo

namespace Uiauto

/-- The fixed service endpoint (main.py lines 27-29). -/
def UIAUTODEV_URL : String := "http://127.0.0.1:20242"

/-- The supervisor state: the global `server_process` handle (main.py line
32), abstracted to whether a child is currently owned. -/
structure ServerState where
  server_process : Option Unit
  deriving DecidableEq, Repr

/-- Outcome of `server_process.wait(timeout=5)`: returns, raises
TimeoutExpired, or raises some other exception. -/
inductive WaitOutcome where
  | ok
  | timeout
  | raisesOther
  deriving DecidableEq, Repr

/-- Environment fixing the outcome of each fallible external call made
during one supervisor operation: the port probe result, and whether
terminate / wait / kill / Popen raise, and whether the readiness wait
succeeds within its bound. -/
structure Env where
  portInUse : Bool
  terminateRaises : Bool
  waitOutcome : WaitOutcome
  killRaises : Bool
  spawnRaises : Bool
  becomesReady : Bool
  deriving DecidableEq, Repr

/-- External calls performed by the supervisor, recorded in order. -/
inductive Action where
  | probePort
  | emitLog
  | spawnChild
  | relayLogs
  | terminate
  | waitChild
  | killChild
  | httpShutdown
  | sleep1
  deriving DecidableEq, Repr

/-- `stop_uiautodev_server` (main.py lines 164-183).  The try block calls
terminate then wait; `except TimeoutExpired` runs kill, `except Exception`
swallows anything else raised by the try block.  Per Python semantics an
exception raised inside the TimeoutExpired handler (by kill itself) is not
caught by the sibling handler and escapes the function: that case returns
`none` (the caller sees the exception) and the out-of-band `/shutdown` HTTP
call is never reached.  In every other case `server_process` is cleared and
the shutdown call is attempted (its own failure is swallowed). -/
def stop_server (env : Env) (s : ServerState) : Option ServerState × List Action :=
  match s.server_process with
  | none =>
    (some s, [Action.httpShutdown])
  | some _ =>
    if env.terminateRaises then
      (some { server_process := none }, [Action.terminate, Action.httpShutdown])
    else
      match env.waitOutcome with
      | WaitOutcome.ok =>
        (some { server_process := none },
          [Action.terminate, Action.waitChild, Action.httpShutdown])
      | WaitOutcome.raisesOther =>
        (some { server_process := none },
          [Action.terminate, Action.waitChild, Action.httpShutdown])
      | WaitOutcome.timeout =>
        if env.killRaises then
          (none, [Action.terminate, Action.waitChild, Action.killChild])
        else
          (some { server_process := none },
            [Action.terminate, Action.waitChild, Action.killChild, Action.httpShutdown])

/-- `start_uiautodev_server` (main.py lines 99-161): probe the port; if in
use, log and adopt the running instance without spawning; otherwise log,
spawn the child (a Popen failure is caught, logged and reported as failure),
start the two log-relay readers, then wait for readiness and log the
outcome.  Returns success, the new state, and the action trace. -/
def start_server (env : Env) (s : ServerState) : Bool × ServerState × List Action :=
  if env.portInUse then
    (true, s, [Action.probePort, Action.emitLog])
  else if env.spawnRaises then
    (false, s, [Action.probePort, Action.emitLog, Action.spawnChild, Action.emitLog])
  else
    let s1 : ServerState := { server_process := some () }
    if env.becomesReady then
      (true, s1,
        [Action.probePort, Action.emitLog, Action.spawnChild, Action.relayLogs, Action.emitLog])
    else
      (false, s1,
        [Action.probePort, Action.emitLog, Action.spawnChild, Action.relayLogs, Action.emitLog])

/-- Result payloads of `handle_request` (main.py lines 186-212). -/
inductive UVal where
  | url (u : String)
  | status (running : Bool) (u : Option String)
  | restartResult (success : Bool) (u : Option String)
  | shutdownResult
  deriving DecidableEq, Repr

/-- A handler outcome: a result dictionary or an error object. -/
inductive UResp where
  | result (v : UVal)
  | rpcError (code : Int) (message : String)
  deriving DecidableEq, Repr

/-- `handle_request` (main.py lines 186-212).  Returns `none` when an
exception escapes (only possible through `stop_server`), otherwise the new
state and the response payload, together with the external calls made. -/
def handle_request (env : Env) (s : ServerState) (method : String) :
    Option (ServerState × UResp) × List Action :=
  if method = "getServerUrl" then
    (some (s, UResp.result (UVal.url UIAUTODEV_URL)), [])
  else if method = "getServerStatus" then
    (some (s, UResp.result (UVal.status env.portInUse
      (if env.portInUse then some UIAUTODEV_URL else none))), [Action.probePort])
  else if method = "restartServer" then
    match stop_server env s with
    | (none, acts) => (none, acts)
    | (some s1, acts) =>
      let r := start_server env s1
      (some (r.2.1, UResp.result (UVal.restartResult r.1
        (if r.1 then some UIAUTODEV_URL else none))),
        acts ++ [Action.sleep1] ++ r.2.2)
  else if method = "shutdown" then
    match stop_server env s with
    | (none, acts) => (none, acts)
    | (some s1, acts) => (some (s1, UResp.result UVal.shutdownResult), acts)
  else
    (some (s, UResp.rpcError (-32601) ("Method not found: " ++ method)), [])

/-- One input line of the uiautodev `main` loop after `json.loads`. -/
inductive ULine where
  | malformed
  | request (id : Option Int) (method : String)
  deriving DecidableEq, Repr

/-- Protocol frames written by `send_response`. -/
inductive UOut where
  | response (id : Int) (v : UVal)
  | errorResponse (id : Int) (code : Int) (message : String)
  deriving DecidableEq, Repr

/-- One iteration of the uiautodev `main` loop (main.py lines 245-262): a
malformed line is silently skipped (`except JSONDecodeError: continue`);
otherwise the request is handled and a response is written only when an id
was present.  `none` means an exception escaped `handle_request` and the
loop crashed. -/
def uProcessLine (env : Env) (s : ServerState) (l : ULine) :
    Option ServerState × List UOut :=
  match l with
  | ULine.malformed => (some s, [])
  | ULine.request id m =>
    match handle_request env s m with
    | (none, _) => (none, [])
    | (some (s1, resp), _) =>
      match id with
      | none => (some s1, [])
      | some i =>
        match resp with
        | UResp.result v => (some s1, [UOut.response i v])
        | UResp.rpcError c msg => (some s1, [UOut.errorResponse i c msg])

/-- The uiautodev read loop folded over a list of input lines; a crash
stops the loop. -/
def uProcessLines (env : Env) (s : ServerState) (ls : List ULine) :
    Option ServerState × List UOut :=
  match ls with
  | [] => (some s, [])
  | l :: rest =>
    match uProcessLine env s l with
    | (none, outs) => (none, outs)
    | (some s1, outs) =>
      let r := uProcessLines env s1 rest
      (r.1, outs ++ r.2)

end Uiauto

namespace Pomodoro

/-- When the running flag is down, the while condition fails and the worker
exits from the loop head without emitting anything. -/
theorem timer_loop_loopHead_stopped (fuel : Nat) (s : TimerState)
    (h : s.is_running = false) :
    timer_loop fuel WorkerPC.loopHead s = ([], s) := by
  cases fuel with
  | zero => rfl
  | succ n => simp [timer_loop, h]

/-- When the running flag is down, the worker emits at most one tick: none
from the loop head, and exactly the in-flight one when it is already inside
the loop body. -/
theorem timer_loop_ticks_stopped (fuel : Nat) (pc : WorkerPC) (s : TimerState)
    (h : s.is_running = false) :
    ((timer_loop fuel pc s).1.countP (fun e => isTick e)) ≤ 1 := by
  cases fuel with
  | zero => cases pc <;> simp [timer_loop]
  | succ n =>
    cases pc with
    | loopHead => simp [timer_loop, h]
    | afterSleep =>
      simp only [timer_loop]
      by_cases hr : s.remaining - 1 ≤ 0
      · simp [hr, timer_loop_loopHead_stopped, isTick, List.countP_cons]
      · have hstop := timer_loop_loopHead_stopped n { s with remaining := s.remaining - 1 } h
        simp [hr, hstop, isTick, List.countP_cons]

/-- Notification frames survive the response filter. -/
theorem filter_notify_outs (evs : List Event) :
    (evs.map (fun e => Out.stdout (OutMsg.notify e))).filter
        (fun o => !(isResponseOut o)) =
      evs.map (fun e => Out.stdout (OutMsg.notify e)) := by
  induction evs with
  | nil => rfl
  | cons e t ih => simp [List.filter, isResponseOut, ih]

/-- A success-response frame is removed by the response filter. -/
theorem filter_response_out_nil (i : Int) (v : RpcVal) :
    ([Out.stdout (OutMsg.response i v)].filter (fun o => !(isResponseOut o))) = [] := rfl

/-- An error-response frame is removed by the response filter. -/
theorem filter_error_response_out_nil (i c : Int) (m : String) :
    ([Out.stdout (OutMsg.errorResponse i c m)].filter (fun o => !(isResponseOut o))) = [] := rfl

end Pomodoro

/-- C1: in every state where the timer is already running, a start request
(whatever its id and duration) is answered with exactly one response whose
result is success=false, error="Timer already running"; duration, remaining,
the running flag and the start time are all unchanged and no second
tick-worker thread is spawned, so only the one existing tick stream runs. -/
theorem c1_redundant_start_rejected (s : Pomodoro.TimerState) (d : Option Int)
    (i : Int) (now : Nat) (h : s.is_running = true) :
    Pomodoro.processLine s
        (Pomodoro.Line.request { id := some i, method := "start", params := { duration := d } })
        now =
      (s, [Pomodoro.Out.stdout (Pomodoro.OutMsg.response i
        (Pomodoro.RpcVal.opFailure "Timer already running"))], false) := by
  simp [Pomodoro.processLine, Pomodoro.handle_method, Pomodoro.start_timer, h]

/-- C1 witness: the rejection at a concrete running state. -/
theorem c1_redundant_start_rejected_witness :
    ((⟨1500, 42, true, none⟩ : Pomodoro.TimerState).is_running = true) ∧
    Pomodoro.processLine ⟨1500, 42, true, none⟩
        (Pomodoro.Line.request { id := some 2, method := "start", params := { duration := some 5 } })
        0 =
      (⟨1500, 42, true, none⟩, [Pomodoro.Out.stdout (Pomodoro.OutMsg.response 2
        (Pomodoro.RpcVal.opFailure "Timer already running"))], false) :=
  ⟨rfl, c1_redundant_start_rejected ⟨1500, 42, true, none⟩ (some 5) 2 0 rfl⟩

/-- C2: scenario A.  A start request with id 1 and duration 5 against the
idle initial state produces exactly one success response with remaining 5,
then the worker emits exactly five tick notifications with remaining values
4, 3, 2, 1, 0 (strictly decreasing), then exactly one completion
notification, and nothing after it. -/
theorem c2_scenario_a :
    Pomodoro.scenarioA =
      [Pomodoro.Out.stdout (Pomodoro.OutMsg.response 1 (Pomodoro.RpcVal.successRemaining 5)),
       Pomodoro.Out.stdout (Pomodoro.OutMsg.notify (Pomodoro.Event.tick 4 5)),
       Pomodoro.Out.stdout (Pomodoro.OutMsg.notify (Pomodoro.Event.tick 3 5)),
       Pomodoro.Out.stdout (Pomodoro.OutMsg.notify (Pomodoro.Event.tick 2 5)),
       Pomodoro.Out.stdout (Pomodoro.OutMsg.notify (Pomodoro.Event.tick 1 5)),
       Pomodoro.Out.stdout (Pomodoro.OutMsg.notify (Pomodoro.Event.tick 0 5)),
       Pomodoro.Out.stdout (Pomodoro.OutMsg.notify Pomodoro.Event.complete)] := by
  decide

/-- C3 counterexample: the claim that no tick notification follows a stop
acknowledgment is false.  Concretely, with the timer at remaining 5 and the
worker inside its one-second sleep (program counter afterSleep, past the
while-condition check), a pause request is acknowledged with success and
remaining 5; the worker then wakes, decrements, and emits the tick with
remaining 4 after that acknowledgment. -/
theorem c3_tick_after_ack_counterexample :
    Pomodoro.pause_timer ⟨5, 5, true, none⟩ =
      (⟨5, 5, false, none⟩, Pomodoro.RpcVal.successRemaining 5) ∧
    (Pomodoro.timer_loop 3 Pomodoro.WorkerPC.afterSleep ⟨5, 5, false, none⟩).1 =
      [Pomodoro.Event.tick 4 5] := by
  decide

/-- C3 amended: after a pause of the running timer is acknowledged, at most
the single in-flight tick (the loop-body iteration the worker had already
entered) is still emitted; from the next loop-condition check on, the worker
exits with no further notification. -/
theorem c3_after_ack_at_most_inflight_tick (s : Pomodoro.TimerState)
    (fuel : Nat) (pc : Pomodoro.WorkerPC) (h : s.is_running = true) :
    ((Pomodoro.timer_loop fuel pc (Pomodoro.pause_timer s).1).1.countP
        (fun e => Pomodoro.isTick e)) ≤ 1 ∧
    Pomodoro.timer_loop fuel Pomodoro.WorkerPC.loopHead (Pomodoro.pause_timer s).1 =
      ([], (Pomodoro.pause_timer s).1) := by
  have hp : (Pomodoro.pause_timer s).1 = { s with is_running := false } := by
    simp [Pomodoro.pause_timer, h]
  constructor
  · rw [hp]
    exact Pomodoro.timer_loop_ticks_stopped fuel pc _ rfl
  · rw [hp]
    exact Pomodoro.timer_loop_loopHead_stopped fuel _ rfl

/-- C3 amended witness: the bound at a concrete running state with the
worker inside its sleep. -/
theorem c3_after_ack_at_most_inflight_tick_witness :
    ((⟨5, 5, true, none⟩ : Pomodoro.TimerState).is_running = true) ∧
    (((Pomodoro.timer_loop 3 Pomodoro.WorkerPC.afterSleep
        (Pomodoro.pause_timer ⟨5, 5, true, none⟩).1).1.countP
        (fun e => Pomodoro.isTick e)) ≤ 1 ∧
      Pomodoro.timer_loop 3 Pomodoro.WorkerPC.loopHead
          (Pomodoro.pause_timer ⟨5, 5, true, none⟩).1 =
        ([], (Pomodoro.pause_timer ⟨5, 5, true, none⟩).1)) :=
  ⟨rfl, c3_after_ack_at_most_inflight_tick ⟨5, 5, true, none⟩ 3 Pomodoro.WorkerPC.afterSleep rfl⟩

/-- C4 counterexample: the claim that every backend reports a JSON decode
failure as a Notification on standard output is false for the pomodoro
backend, whose `main` handles `json.JSONDecodeError` by writing a free-text
diagnostic to standard error; on the concrete malformed line at the initial
state the step writes no stdout frame at all. -/
theorem c4_stderr_not_notification_counterexample :
    Pomodoro.processLine Pomodoro.initState Pomodoro.Line.malformed 0 =
      (Pomodoro.initState, [Pomodoro.Out.stderr "JSON 解析错误"], false) ∧
    ((Pomodoro.processLine Pomodoro.initState Pomodoro.Line.malformed 0).2.1.countP
      (fun o => Pomodoro.isStdoutOut o)) = 0 := by
  decide

/-- C4 amended: a line that is not valid JSON never aborts the read loop —
the remaining lines are processed exactly as they would have been without
it, from an unchanged state.  The decode failure is reported as an error
Notification on stdout by the backend-demo, as a free-text diagnostic on
stderr by the pomodoro backend, and is silently skipped by the uiautodev
backend. -/
theorem c4_malformed_line_resilience (s : Pomodoro.TimerState)
    (rest : List Pomodoro.Line) (now : Nat)
    (ds : Demo.MonState) (drest : List Demo.DLine)
    (env : Uiauto.Env) (us : Uiauto.ServerState) (urest : List Uiauto.ULine) :
    Pomodoro.processLines s (Pomodoro.Line.malformed :: rest) now =
      ((Pomodoro.processLines s rest now).1,
        Pomodoro.Out.stderr "JSON 解析错误" :: (Pomodoro.processLines s rest now).2) ∧
    Demo.dProcessLines ds (Demo.DLine.malformed :: drest) =
      ((Demo.dProcessLines ds drest).1,
        Demo.DOut.notif "error" :: (Demo.dProcessLines ds drest).2) ∧
    Uiauto.uProcessLines env us (Uiauto.ULine.malformed :: urest) =
      Uiauto.uProcessLines env us urest := by
  refine ⟨?_, ?_, ?_⟩
  · simp [Pomodoro.processLines, Pomodoro.processLine]
  · simp [Demo.dProcessLines, Demo.dProcessLine]
  · simp [Uiauto.uProcessLines, Uiauto.uProcessLine]

/-- C5: a request whose id is absent is executed exactly like the same
request with an id — same new state, same spawn behaviour, and the same
outputs except that the response frame is suppressed; in the uiautodev
backend, which emits nothing but responses from its loop, the idless
request produces no output at all while reaching the same state. -/
theorem c5_no_id_suppresses_response (s : Pomodoro.TimerState) (m : String)
    (p : Pomodoro.Params) (i : Int) (now : Nat)
    (env : Uiauto.Env) (us : Uiauto.ServerState) :
    (Pomodoro.processLine s (Pomodoro.Line.request { id := none, method := m, params := p }) now =
      ((Pomodoro.processLine s (Pomodoro.Line.request { id := some i, method := m, params := p }) now).1,
       (Pomodoro.processLine s (Pomodoro.Line.request { id := some i, method := m, params := p }) now).2.1.filter
         (fun o => !(Pomodoro.isResponseOut o)),
       (Pomodoro.processLine s (Pomodoro.Line.request { id := some i, method := m, params := p }) now).2.2)) ∧
    (Uiauto.uProcessLine env us (Uiauto.ULine.request none m)).1 =
      (Uiauto.uProcessLine env us (Uiauto.ULine.request (some i) m)).1 ∧
    (Uiauto.uProcessLine env us (Uiauto.ULine.request none m)).2 = [] := by
  refine ⟨?_, ?_, ?_⟩
  · rcases hh : Pomodoro.handle_method s m p now with ⟨s1, evs, oc, sp⟩
    cases oc <;>
      simp [Pomodoro.processLine, hh, List.filter_append, Pomodoro.filter_notify_outs,
        Pomodoro.filter_response_out_nil, Pomodoro.filter_error_response_out_nil]
  · rcases hr : Uiauto.handle_request env us m with ⟨ost, acts⟩
    match ost with
    | none => simp [Uiauto.uProcessLine, hr]
    | some (s1, resp) => cases resp <;> simp [Uiauto.uProcessLine, hr]
  · rcases hr : Uiauto.handle_request env us m with ⟨ost, acts⟩
    match ost with
    | none => simp [Uiauto.uProcessLine, hr]
    | some (s1, resp) => cases resp <;> simp [Uiauto.uProcessLine, hr]

/-- C6: a request carrying an id and an unregistered method name is
answered with exactly one error response that carries the original id, code
-32601 and message "Method not found: " followed by the method name, and
the state is unchanged; this holds for the pomodoro read loop (registered:
start, pause, reset, getStatus) and for the uiautodev handler (registered:
getServerUrl, getServerStatus, restartServer, shutdown), which also makes
no external call. -/
theorem c6_unknown_method_error (s : Pomodoro.TimerState) (p : Pomodoro.Params)
    (i : Int) (now : Nat) (env : Uiauto.Env) (us : Uiauto.ServerState) (m : String)
    (h1 : m ≠ "start") (h2 : m ≠ "pause") (h3 : m ≠ "reset") (h4 : m ≠ "getStatus")
    (g1 : m ≠ "getServerUrl") (g2 : m ≠ "getServerStatus")
    (g3 : m ≠ "restartServer") (g4 : m ≠ "shutdown") :
    Pomodoro.processLine s (Pomodoro.Line.request { id := some i, method := m, params := p }) now =
      (s, [Pomodoro.Out.stdout (Pomodoro.OutMsg.errorResponse i (-32601)
        ("Method not found: " ++ m))], false) ∧
    Uiauto.handle_request env us m =
      (some (us, Uiauto.UResp.rpcError (-32601) ("Method not found: " ++ m)), []) := by
  constructor
  · simp [Pomodoro.processLine, Pomodoro.handle_method, h1, h2, h3, h4]
  · simp [Uiauto.handle_request, g1, g2, g3, g4]

/-- C6 witness: method "bogus" with id 7, at the initial pomodoro state and
a concrete uiautodev state. -/
theorem c6_unknown_method_error_witness :
    Pomodoro.processLine Pomodoro.initState
        (Pomodoro.Line.request { id := some 7, method := "bogus", params := { duration := none } }) 0 =
      (Pomodoro.initState, [Pomodoro.Out.stdout (Pomodoro.OutMsg.errorResponse 7 (-32601)
        ("Method not found: " ++ "bogus"))], false) ∧
    Uiauto.handle_request ⟨false, false, Uiauto.WaitOutcome.ok, false, false, false⟩ ⟨none⟩ "bogus" =
      (some (⟨none⟩, Uiauto.UResp.rpcError (-32601) ("Method not found: " ++ "bogus")), []) :=
  c6_unknown_method_error Pomodoro.initState { duration := none } 7 0
    ⟨false, false, Uiauto.WaitOutcome.ok, false, false, false⟩ ⟨none⟩ "bogus"
    (by decide) (by decide) (by decide) (by decide)
    (by decide) (by decide) (by decide) (by decide)

/-- C7 counterexample: the claim that no step's failure prevents the
out-of-band shutdown call is false.  With an owned child, a graceful
terminate that returns, a grace-period wait that times out, and a force-kill
that raises, the exception raised inside the TimeoutExpired handler is not
caught by the sibling handler and escapes `stop_uiautodev_server`: the trace
ends at the kill and the shutdown endpoint is never called. -/
theorem c7_kill_failure_skips_shutdown_counterexample :
    Uiauto.stop_server ⟨false, false, Uiauto.WaitOutcome.timeout, true, false, false⟩ ⟨some ()⟩ =
      (none, [Uiauto.Action.terminate, Uiauto.Action.waitChild, Uiauto.Action.killChild]) ∧
    Uiauto.Action.httpShutdown ∉
      (Uiauto.stop_server ⟨false, false, Uiauto.WaitOutcome.timeout, true, false, false⟩
        ⟨some ()⟩).2 := by
  decide

/-- C7 amended: provided the force-kill itself does not raise, every stop
performs graceful termination of the owned child (if any), then the bounded
wait, then the force-kill exactly when the wait timed out, and finally —
whether or not a child was owned and whether or not terminate or the wait
failed — the out-of-band shutdown call, which is always the last action and
is attempted exactly once; the handle is cleared.  A failure raised by the
force-kill inside the timeout handler escapes and skips the shutdown call. -/
theorem c7_stop_order_and_shutdown (env : Uiauto.Env) (s : Uiauto.ServerState)
    (h : env.killRaises = false) :
    (Uiauto.stop_server env s).1 = some ⟨none⟩ ∧
    (Uiauto.stop_server env s).2 ∈ [
      [Uiauto.Action.httpShutdown],
      [Uiauto.Action.terminate, Uiauto.Action.httpShutdown],
      [Uiauto.Action.terminate, Uiauto.Action.waitChild, Uiauto.Action.httpShutdown],
      [Uiauto.Action.terminate, Uiauto.Action.waitChild, Uiauto.Action.killChild,
        Uiauto.Action.httpShutdown]] ∧
    (s.server_process = none → (Uiauto.stop_server env s).2 = [Uiauto.Action.httpShutdown]) := by
  rcases s with ⟨sp⟩
  rcases env with ⟨pu, tr, wo, kr, sr, br⟩
  cases h
  cases sp <;> cases tr <;> cases wo <;> simp [Uiauto.stop_server]

/-- C7 amended witness: a stop with an owned child whose wait times out and
whose kill succeeds ends with the shutdown call. -/
theorem c7_stop_order_and_shutdown_witness :
    ((⟨false, false, Uiauto.WaitOutcome.timeout, false, false, false⟩ : Uiauto.Env).killRaises
      = false) ∧
    ((Uiauto.stop_server ⟨false, false, Uiauto.WaitOutcome.timeout, false, false, false⟩
        ⟨some ()⟩).1 = some ⟨none⟩ ∧
      (Uiauto.stop_server ⟨false, false, Uiauto.WaitOutcome.timeout, false, false, false⟩
          ⟨some ()⟩).2 ∈ [
        [Uiauto.Action.httpShutdown],
        [Uiauto.Action.terminate, Uiauto.Action.httpShutdown],
        [Uiauto.Action.terminate, Uiauto.Action.waitChild, Uiauto.Action.httpShutdown],
        [Uiauto.Action.terminate, Uiauto.Action.waitChild, Uiauto.Action.killChild,
          Uiauto.Action.httpShutdown]] ∧
      ((⟨some ()⟩ : Uiauto.ServerState).server_process = none →
        (Uiauto.stop_server ⟨false, false, Uiauto.WaitOutcome.timeout, false, false, false⟩
          ⟨some ()⟩).2 = [Uiauto.Action.httpShutdown])) :=
  ⟨rfl, c7_stop_order_and_shutdown
    ⟨false, false, Uiauto.WaitOutcome.timeout, false, false, false⟩ ⟨some ()⟩ rfl⟩

/-- C8: when the readiness probe against the configured endpoint already
succeeds, start returns success immediately, adopts the running instance
with the supervisor state unchanged, and its action trace is just the probe
and a log line — in particular no child process is spawned, so a redundant
start never creates a second concurrent worker. -/
theorem c8_adopt_running_instance (env : Uiauto.Env) (s : Uiauto.ServerState)
    (h : env.portInUse = true) :
    Uiauto.start_server env s = (true, s, [Uiauto.Action.probePort, Uiauto.Action.emitLog]) ∧
    Uiauto.Action.spawnChild ∉ (Uiauto.start_server env s).2.2 := by
  constructor
  · simp [Uiauto.start_server, h]
  · simp [Uiauto.start_server, h]

/-- C8 witness: adoption at a concrete environment whose probe succeeds. -/
theorem c8_adopt_running_instance_witness :
    ((⟨true, false, Uiauto.WaitOutcome.ok, false, false, false⟩ : Uiauto.Env).portInUse = true) ∧
    (Uiauto.start_server ⟨true, false, Uiauto.WaitOutcome.ok, false, false, false⟩ ⟨some ()⟩ =
      (true, ⟨some ()⟩, [Uiauto.Action.probePort, Uiauto.Action.emitLog]) ∧
      Uiauto.Action.spawnChild ∉
        (Uiauto.start_server ⟨true, false, Uiauto.WaitOutcome.ok, false, false, false⟩
          ⟨some ()⟩).2.2) :=
  ⟨rfl, c8_adopt_running_instance
    ⟨true, false, Uiauto.WaitOutcome.ok, false, false, false⟩ ⟨some ()⟩ rfl⟩

/-- C9: starting the idle timer with duration 0 or with no duration falls
back to the stored duration: remaining is reset to the stored duration
(1500 seconds in the initial state) rather than 0, and the stored duration
is not overwritten, so passing 0 never produces a zero-length countdown. -/
theorem c9_zero_duration_falls_back (s : Pomodoro.TimerState) (now : Nat)
    (h : s.is_running = false) :
    Pomodoro.start_timer s (some 0) now =
      ({ s with remaining := s.duration, is_running := true, start_time := some now },
        Pomodoro.RpcVal.successRemaining s.duration, true) ∧
    Pomodoro.start_timer s none now =
      ({ s with remaining := s.duration, is_running := true, start_time := some now },
        Pomodoro.RpcVal.successRemaining s.duration, true) ∧
    (Pomodoro.start_timer s (some 0) now).1.duration = s.duration ∧
    Pomodoro.initState.duration = 1500 := by
  refine ⟨?_, ?_, ?_, ?_⟩ <;> simp [Pomodoro.start_timer, Pomodoro.initState, h]

/-- C9 witness: the fallback at the initial state, whose stored duration is
1500 seconds. -/
theorem c9_zero_duration_falls_back_witness :
    (Pomodoro.initState.is_running = false) ∧
    (Pomodoro.start_timer Pomodoro.initState (some 0) 0 =
      ({ Pomodoro.initState with remaining := Pomodoro.initState.duration, is_running := true, start_time := some 0 },
        Pomodoro.RpcVal.successRemaining Pomodoro.initState.duration, true) ∧
      Pomodoro.start_timer Pomodoro.initState none 0 =
        ({ Pomodoro.initState with remaining := Pomodoro.initState.duration, is_running := true, start_time := some 0 },
          Pomodoro.RpcVal.successRemaining Pomodoro.initState.duration, true) ∧
      (Pomodoro.start_timer Pomodoro.initState (some 0) 0).1.duration =
        Pomodoro.initState.duration ∧
      Pomodoro.initState.duration = 1500) :=
  ⟨rfl, c9_zero_duration_falls_back Pomodoro.initState 0 rfl⟩

/-- C10: status queries are pure frame-preserving reads: a getStatus request
leaves the whole timer state unchanged and spawns no worker, and the
uiautodev getServerUrl and getServerStatus handlers leave the supervisor
state — in particular the child-process handle — unchanged, whatever the
probe environment reports. -/
theorem c10_status_queries_frame (s : Pomodoro.TimerState) (p : Pomodoro.Params)
    (i : Int) (now : Nat) (env : Uiauto.Env) (us : Uiauto.ServerState) :
    (Pomodoro.processLine s
      (Pomodoro.Line.request { id := some i, method := "getStatus", params := p }) now).1 = s ∧
    (Pomodoro.processLine s
      (Pomodoro.Line.request { id := some i, method := "getStatus", params := p }) now).2.2
        = false ∧
    (Uiauto.handle_request env us "getServerUrl").1.map Prod.fst = some us ∧
    (Uiauto.handle_request env us "getServerStatus").1.map Prod.fst = some us := by
  refine ⟨?_, ?_, ?_, ?_⟩ <;>
    simp [Pomodoro.processLine, Pomodoro.handle_method, Uiauto.handle_request]
